import Mathlib

/-!
Verification development for the SRLP sand-bed river long-profile solver
(`srlp/srlp.py`, class `LongProfile`).

The Python class mutates one object holding numpy arrays; we embed it as a
Lean structure of `List ℝ` fields together with pure state-transforming
functions, one per Python method.  numpy's elementwise arithmetic is embedded
with `List.zipWith` / `List.map`, numpy slicing with `List.drop` /
`List.dropLast`, and `np.hstack` with list construction.  Machine floats are
modelled as exact reals.  Methods that can terminate abruptly
(`sys.exit`, attribute access on a never-assigned attribute) return
`Except PyErr _`.  The external sparse solver `scipy...spsolve` is an
external collaborator and is passed in as an abstract function argument.
-/

namespace SRLP

noncomputable section

open scoped Classical

/-- Abrupt-termination outcomes of the Python code: `sys.exit(msg)`
(a configuration error), `AttributeError` on an attribute that was never
assigned, and `TypeError` from arithmetic on a `None` value (e.g.
multiplying or adding `None` where a float was required, or storing `None`
into a float numpy array). -/
inductive PyErr
  | systemExit (msg : String)
  | attributeError (attr : String)
  | typeError (msg : String)
deriving DecidableEq

/-- Python arguments that may be either a scalar or an array
(the `hasattr(Q, "__iter__")` checks in `set_Q` / `set_B`). -/
inductive NumOrArr
  | num (v : ℝ)
  | arr (l : List ℝ)

/-- numpy `a[i]` read (claims only exercise in-bounds reads, so the
out-of-bounds `IndexError` is collapsed to a default value). -/
def npGet (l : List ℝ) (i : ℕ) : ℝ := l.getD i 0

/-- numpy negative-index read: `npGetNeg l 1` is `l[-1]`, `npGetNeg l 2` is `l[-2]`. -/
def npGetNeg (l : List ℝ) (k : ℕ) : ℝ := l.getD (l.length - k) 0

/-- numpy `np.diff`: consecutive differences `l[1:] - l[:-1]`. -/
def npDiff (l : List ℝ) : List ℝ := List.zipWith (fun a b => b - a) l l.tail

/-- numpy `l[2:] - l[:-2]`: the two-cell-wide difference used for `dx_2cell`,
`dx_ext_2cell`, slopes and `dQ`. -/
def twoCellDiff (l : List ℝ) : List ℝ := List.zipWith (fun a b => a - b) (l.drop 2) l

/-- numpy `l[1:-1]`: the interior slice of a ghost-padded array. -/
def interior (l : List ℝ) : List ℝ := (l.drop 1).dropLast

/-- numpy `np.hstack((2*l[0]-l[1], l, 2*l[-1]-l[-2]))`: ghost-pad an interior
array by linear extrapolation at both ends. -/
def ghostPad (l : List ℝ) : List ℝ :=
  (2 * npGet l 0 - npGet l 1) :: l ++ [2 * npGetNeg l 1 - npGetNeg l 2]

/-- numpy in-place interior assignment `l[1:-1] = mid` (first entry, new
interior, last entry). -/
def setInterior (l : List ℝ) (mid : List ℝ) : List ℝ :=
  l.take 1 ++ mid ++ l.drop (l.length - 1)

/-- Elementwise product (numpy `a * b` on arrays). -/
def emul (a b : List ℝ) : List ℝ := List.zipWith (fun x y => x * y) a b

/-- Elementwise quotient (numpy `a / b` on arrays). -/
def ediv (a b : List ℝ) : List ℝ := List.zipWith (fun x y => x / y) a b

/-- Elementwise difference (numpy `a - b` on arrays). -/
def esub (a b : List ℝ) : List ℝ := List.zipWith (fun x y => x - y) a b

/-- Elementwise sum (numpy `a + b` on arrays). -/
def eadd (a b : List ℝ) : List ℝ := List.zipWith (fun x y => x + y) a b

/-- numpy `np.cumsum`. -/
def cumsum (l : List ℝ) : List ℝ := (l.scanl (fun x y => x + y) 0).tail

/-- numpy `np.roll(l, -1)`. -/
def rollLeft (l : List ℝ) : List ℝ := l.rotate 1

/-- numpy `np.roll(l, 1)`. -/
def rollRight (l : List ℝ) : List ℝ := l.rotate (l.length - 1)

/-- Python truthiness of an optional float argument (`if q_R:` style tests):
`None` and `0.0` are falsy, every other float is truthy. -/
def truthy : Option ℝ → Prop
  | none => False
  | some v => v ≠ 0

/-- numpy `arr.any()` on a float array: true iff some entry is nonzero. -/
def npAny (l : List ℝ) : Prop := ∃ v ∈ l, v ≠ 0

/-- State of one `LongProfile` instance.  Fields keep the Python attribute
names.  Attributes whose `None`-ness (or absence) is observed by the code are
`Option`s: `x_ext` is never assigned by `__init__` (its absence is the
`AttributeError` in `set_x`), `S0` and `Q_s_0` are tested with
`is not None` / truthiness and participate in float arithmetic (`TypeError`
when still `None`), `z_bl` is `None` until set and is written into a float
array and multiplied (`TypeError` when still `None`), `k_xQ` and `k_xA` are
only conditionally assigned.  Remaining fields carry neutral defaults standing for a configured
segment; the claims never observe them before they are set (`lambda_p` is the
value installed by `basic_constants`, `P_AQ`/`P_xA` those of
`set_hydrologic_constants`).  `warnings` is a log of `warnings.warn` calls. -/
structure LongProfile where
  z : List ℝ := []
  x : List ℝ := []
  A : List ℝ := []
  A_ext : List ℝ := []
  Q : List ℝ := []
  B : List ℝ := []
  S0 : Option ℝ := none
  dx_ext : List ℝ := []
  dx_2cell : List ℝ := []
  Q_s_0 : Option ℝ := none
  z_bl : Option ℝ := none
  ssd : ℝ := 0
  sinuosity : ℝ := 1
  intermittency : ℝ := 1
  t : ℝ := 0
  upstream_segment_IDs : List ℕ := []
  downstream_segment_IDs : List ℕ := []
  downstream_fining_subsidence_equivalent : ℝ := 0
  x_ext : Option (List ℝ) := none
  dx : List ℝ := []
  dx_ext_2cell : List ℝ := []
  nx : ℕ := 0
  L : ℝ := 0
  z_ext : List ℝ := []
  dQ : List ℝ := []
  U : ℝ := 0
  lambda_p : ℝ := 0.35
  k_Qs : ℝ := 0
  k_xQ : Option ℝ := none
  P_AQ : ℝ := 0.7
  P_xA : ℝ := 7 / 4
  k_xA : Option ℝ := none
  niter : ℕ := 3
  nt : ℕ := 1
  dt : ℝ := 0
  C0 : List ℝ := []
  C1 : List ℝ := []
  dzdx_0_16 : List ℝ := []
  left : List ℝ := []
  center : List ℝ := []
  right : List ℝ := []
  bcl : ℝ := 0
  bcr : ℝ := 0
  LHSmatrix : List ℝ × List ℝ × List ℝ := ([], [], [])
  RHS : List ℝ := []
  zold : List ℝ := []
  dz_dt : List ℝ := []
  Qs_internal : List ℝ := []
  warnings : List String := []

/-- A freshly constructed `LongProfile()` (the `__init__` state). -/
def LongProfile.init : LongProfile := {}

/-- Python `set_x(x=None, x_ext=None, dx=None, nx=None, x0=None)`.
Branch priority follows the `if/elif` chain of the source: an `x` argument
wins, then `x_ext`, then the full triple `(dx, nx, x0)`; otherwise
`sys.exit("Need x OR x_ext OR (dx, nx, x0)")`.  The `x`-only branch does not
assign `x_ext`, so the trailing `self.L = self.x_ext[-1] - self.x_ext[0]`
raises `AttributeError` whenever `x_ext` was never assigned before.
`np.arange(x0, x0+dx*nx, dx)` is embedded by its exact-arithmetic value
(`nx` evenly spaced points).  A supplied `nx` that disagrees with `len(x)`
only logs the warning "Choosing x length instead of supplied nx". -/
def LongProfile.set_x (self : LongProfile) (x x_ext : Option (List ℝ))
    (dx : Option ℝ) (nx : Option ℕ) (x0 : Option ℝ) : Except PyErr LongProfile :=
  let branch : Except PyErr LongProfile :=
    match x with
    | some xv =>
        Except.ok { self with
          x := xv
          dx := npDiff xv
          dx_2cell := twoCellDiff xv }
    | none =>
      match x_ext with
      | some xev =>
          let xv := interior xev
          Except.ok { self with
            x_ext := some xev
            x := xv
            dx_ext := npDiff xev
            dx_ext_2cell := twoCellDiff xev
            dx_2cell := twoCellDiff xv
            dx := npDiff xv }
      | none =>
        match dx, nx, x0 with
        | some dxv, some nxv, some x0v =>
            let xv := (List.range nxv).map (fun i => x0v + dxv * i)
            let xev := (List.range (nxv + 2)).map (fun i => (x0v - dxv) + dxv * i)
            Except.ok { self with
              x := xv
              x_ext := some xev
              dx := List.replicate (xv.length - 1) dxv
              dx_ext := List.replicate (xv.length + 1) dxv
              dx_2cell := List.replicate (xv.length - 1) 1
              dx_ext_2cell := twoCellDiff xev }
        | _, _, _ => Except.error (PyErr.systemExit "Need x OR x_ext OR (dx, nx, x0)")
  match branch with
  | Except.error e => Except.error e
  | Except.ok s =>
    let s := { s with nx := s.x.length }
    match s.x_ext with
    | none => Except.error (PyErr.attributeError "x_ext")
    | some xev =>
      let s := { s with L := npGetNeg xev 1 - npGet xev 0 }
      let s :=
        match nx with
        | some nxv =>
            if nxv ≠ s.nx then
              { s with warnings := s.warnings ++ ["Choosing x length instead of supplied nx"] }
            else s
        | none => s
      Except.ok s

/-- Python `set_z(z=None, z_ext=None, S0=None, z1=0)`: set the elevation
directly, from a ghost-padded array, or as a straight line of valley slope
`S0` pinned to elevation `z1` at the right-hand end. -/
def LongProfile.set_z (self : LongProfile) :
    Option (List ℝ) → Option (List ℝ) → Option ℝ → ℝ → Except PyErr LongProfile
  | some zv, _, _, _ => Except.ok { self with z := zv, z_ext := ghostPad zv }
  | none, some zev, _, _ => Except.ok { self with z_ext := zev, z := interior zev }
  | none, none, S0, z1 =>
      if npAny self.x then
        match self.x_ext with
        | none => Except.error (PyErr.attributeError "x_ext")
        | some xev =>
          if npAny xev then
            match S0 with
            | some S0v =>
                Except.ok { self with
                  z := self.x.map (fun xi => xi * S0v + (z1 - npGetNeg self.x 1 * S0v))
                  z_ext := xev.map (fun xi => xi * S0v + (z1 - npGetNeg self.x 1 * S0v)) }
            | none => Except.error (PyErr.systemExit "Error defining variable")
          else Except.error (PyErr.systemExit "Error defining variable")
      else Except.error (PyErr.systemExit "Error defining variable")

/-- Python `set_A(A=None, A_ext=None, k_xA=None, P_xA=None)`.  In the
power-law branch the source multiplies by `self.k_xA` even when `None` was
stored; the claims only exercise the first two branches, and the model reads
the stored coefficient with a zero default there. -/
def LongProfile.set_A (self : LongProfile) :
    Option (List ℝ) → Option (List ℝ) → Option ℝ → Option ℝ → Except PyErr LongProfile
  | some Av, _, _, _ => Except.ok { self with A := Av, A_ext := ghostPad Av }
  | none, some Aev, _, _ => Except.ok { self with A_ext := Aev, A := interior Aev }
  | none, none, k_xA, P_xA =>
      if npAny self.x then
        match self.x_ext with
        | none => Except.error (PyErr.attributeError "x_ext")
        | some xev =>
          if npAny xev then
            let self := { self with k_xA := k_xA }
            let self := if truthy P_xA then { self with P_xA := P_xA.getD 0 } else self
            Except.ok { self with
              A_ext := xev.map (fun xi => self.k_xA.getD 0 * xi ^ self.P_xA)
              A := self.x.map (fun xi => self.k_xA.getD 0 * xi ^ self.P_xA) }
          else Except.error (PyErr.systemExit "Error defining variable")
      else Except.error (PyErr.systemExit "Error defining variable")

/-- Python `set_Qs_input_upstream(Q_s_0)`: stores `Q_s_0`, sets the
boundary-condition slope
`S0 = -sign(Q[0]) * sinuosity * (|Q_s_0| / (k_Qs * intermittency * |Q[0]|))**(6/5)`
and writes the upstream ghost elevation `z_ext[0] = z[0] - S0 * dx_ext[0]`. -/
def LongProfile.set_Qs_input_upstream (self : LongProfile) (Q_s_0 : ℝ) : LongProfile :=
  let S0 : ℝ := - Real.sign (npGet self.Q 0) * self.sinuosity *
      (|Q_s_0| / (self.k_Qs * self.intermittency * |npGet self.Q 0|)) ^ ((6 : ℝ) / 5)
  { self with
      Q_s_0 := some Q_s_0
      S0 := some S0
      z_ext := self.z_ext.set 0 (npGet self.z 0 - S0 * npGet self.dx_ext 0) }

/-- Python `update_z_ext_0()`: refresh the upstream ghost elevation from the
stored `S0` (all call sites guard with `S0 is not None`). -/
def LongProfile.update_z_ext_0 (self : LongProfile) : LongProfile :=
  { self with
      z_ext := self.z_ext.set 0 (npGet self.z 0 - self.S0.getD 0 * npGet self.dx_ext 0) }

/-- Branch chain of Python `set_Q(Q=None, Q_ext=None, q_R=None, A_R=None,
P_AQ=None, k_xQ=None, P_xQ=None, update_Qs_input=True)`: the `if/elif`
ladder choosing how the discharge is specified.  It returns the updated
state together with the local ghost-padded discharge `Q_ext`, which feeds
the two-cell difference `dQ` and is then discarded (the object stores no
`Q_ext` attribute). -/
def LongProfile.set_Q_branch (self : LongProfile) (Q : Option NumOrArr)
    (Q_ext : Option (List ℝ)) (q_R A_R P_AQ k_xQ P_xQ : Option ℝ) :
    Except PyErr (LongProfile × List ℝ) :=
  match Q with
    | some qa =>
        let Qv :=
          match qa with
          | NumOrArr.arr l => l
          | NumOrArr.num v => self.x.map (fun _ => v)
        Except.ok ({ self with Q := Qv }, ghostPad Qv)
    | none =>
      match Q_ext with
      | some Qe => Except.ok ({ self with Q := interior Qe }, Qe)
      | none =>
        if truthy q_R ∧ truthy A_R then
          let self := if truthy P_AQ then { self with P_AQ := P_AQ.getD 0 } else self
          let qRv := q_R.getD 0 / 3600
          let Qe := self.A_ext.map (fun a =>
            qRv * min (A_R.getD 0) a * (a / min (A_R.getD 0) a) ^ self.P_AQ)
          Except.ok ({ self with Q := interior Qe }, Qe)
        else
          if npAny self.x then
            match self.x_ext with
            | none => Except.error (PyErr.attributeError "x_ext")
            | some xev =>
              if npAny xev ∧ truthy k_xQ ∧ truthy P_xQ then
                Except.ok ({ self with
                    Q := self.x.map (fun xi => k_xQ.getD 0 * xi ^ P_xQ.getD 0) },
                  xev.map (fun xi => k_xQ.getD 0 * xi ^ P_xQ.getD 0))
              else Except.error (PyErr.systemExit "Error defining variable")
          else Except.error (PyErr.systemExit "Error defining variable")

/-- Final `update_Qs_input` block of Python `set_Q`: re-derive the upstream
sediment-supply boundary condition when the stored `Q_s_0` is truthy
(not `None` and nonzero). -/
def LongProfile.set_Q_update (s : LongProfile) (update_Qs_input : Bool) :
    Except PyErr LongProfile :=
  if update_Qs_input then
    match s.Q_s_0 with
    | some v => if v ≠ 0 then Except.ok (s.set_Qs_input_upstream v) else Except.ok s
    | none => Except.ok s
  else Except.ok s

/-- Tail of Python `set_Q`: after the branch chain, derive `dQ` from the
local ghost-padded discharge, then run the `update_Qs_input` block. -/
def LongProfile.set_Q_tail (self : LongProfile) (Q : Option NumOrArr)
    (Q_ext : Option (List ℝ)) (q_R A_R P_AQ k_xQ P_xQ : Option ℝ)
    (update_Qs_input : Bool) : Except PyErr LongProfile :=
  match self.set_Q_branch Q Q_ext q_R A_R P_AQ k_xQ P_xQ with
  | Except.error e => Except.error e
  | Except.ok sQe =>
      LongProfile.set_Q_update { sQe.1 with dQ := twoCellDiff sQe.2 } update_Qs_input

/-- Python `set_Q(...)`: store `k_xQ` when given, then run the branch chain
and the tail. -/
def LongProfile.set_Q (self : LongProfile) (Q : Option NumOrArr) (Q_ext : Option (List ℝ))
    (q_R A_R P_AQ k_xQ P_xQ : Option ℝ) (update_Qs_input : Bool) : Except PyErr LongProfile :=
  match k_xQ with
  | some v =>
      LongProfile.set_Q_tail { self with k_xQ := some v } Q Q_ext q_R A_R P_AQ k_xQ P_xQ
        update_Qs_input
  | none => LongProfile.set_Q_tail self Q Q_ext q_R A_R P_AQ k_xQ P_xQ update_Qs_input

/-- Python `set_z_bl(z_bl)`: store the base level, then write the downstream
ghost elevation `z_ext[-1] = z_bl`.  Storing `None` into the float array
`z_ext` raises `TypeError` — this is the crash `evolve_threshold_width_river`
hits when it re-applies `set_z_bl(self.z_bl)` on a segment whose base level
was never supplied. -/
def LongProfile.set_z_bl (self : LongProfile) (z_bl : Option ℝ) : Except PyErr LongProfile :=
  match z_bl with
  | none => Except.error (PyErr.typeError "float() argument must not be NoneType")
  | some v =>
      Except.ok { self with
        z_bl := some v
        z_ext := self.z_ext.set (self.z_ext.length - 1) v }

/-- Python `build_LHS_coeff_C0(dt)`: store `dt` and the time-step-invariant
coefficient `C0 = k_Qs * intermittency / ((1-lambda_p) * sinuosity**(5/6)) * dt / dx_ext_2cell`. -/
def LongProfile.build_LHS_coeff_C0 (self : LongProfile) (dt : ℝ) : LongProfile :=
  let self := { self with dt := dt }
  { self with
    C0 := self.dx_ext_2cell.map (fun d =>
      self.k_Qs * self.intermittency / ((1 - self.lambda_p) * self.sinuosity ^ ((5 : ℝ) / 6)) *
        self.dt / d) }

/-- The guarded ghost refresh `if self.S0 is not None: self.update_z_ext_0()`
appearing at the top of `compute_coefficient_time_varying` and at the end of
each outer step of `evolve_threshold_width_river`. -/
def LongProfile.refresh_upstream_ghost (self : LongProfile) : LongProfile :=
  match self.S0 with
  | some _ => self.update_z_ext_0
  | none => self

/-- Python `compute_coefficient_time_varying()`: refresh the upstream ghost
elevation when `S0` is set, then the nonlinear coefficient
`C1 = C0 * |(z_ext[2:] - z_ext[:-2]) / dx_ext_2cell|**(-1/6) * Q / B`,
with one-sided two-point-slope overrides of `C1[-1]` / `C1[0]` when the
segment has downstream / upstream network neighbors. -/
def LongProfile.compute_coefficient_time_varying (self : LongProfile) : LongProfile :=
  let self := self.refresh_upstream_ghost
  let self := { self with
    dzdx_0_16 := (ediv (twoCellDiff self.z_ext) self.dx_ext_2cell).map
      (fun s => |s| ^ (-(1 : ℝ) / 6)) }
  let self := { self with C1 := ediv (emul (emul self.C0 self.dzdx_0_16) self.Q) self.B }
  let self :=
    if self.downstream_segment_IDs.length > 0 then
      { self with
        C1 := self.C1.set (self.C1.length - 1)
          (npGetNeg self.C0 1 *
            (|npGetNeg self.z_ext 2 - npGetNeg self.z_ext 1| / npGetNeg self.dx 1) ^
              (-(1 : ℝ) / 6) *
            npGetNeg self.Q 1 / npGetNeg self.B 1) }
    else self
  if self.upstream_segment_IDs.length > 0 then
    { self with
      C1 := self.C1.set 0
        (npGet self.C0 0 *
          (|npGet self.z_ext 1 - npGet self.z_ext 0| / npGet self.dx 0) ^ (-(1 : ℝ) / 6) *
          npGet self.Q 0 / npGet self.B 0) }
  else self

/-- Python `set_bcr_Dirichlet()`: right-hand-side boundary correction for the
downstream Dirichlet (base-level) condition.  Multiplying a still-`None`
`z_bl` raises `TypeError`. -/
def LongProfile.set_bcr_Dirichlet (self : LongProfile) : Except PyErr LongProfile :=
  match self.z_bl with
  | none => Except.error (PyErr.typeError "unsupported operand types: NoneType * float")
  | some zb =>
      Except.ok { self with
        bcr := zb * (npGetNeg self.C1 1 * ((5 : ℝ) / 3) *
            (1 / npGetNeg self.dx_ext 2 + 1 / npGetNeg self.dx_ext 1) / 2 +
          npGetNeg self.dQ 1 / npGetNeg self.Q 1) }

/-- Python `set_bcl_Neumann_RHS()`: right-hand-side boundary correction for
the upstream Neumann (sediment-supply) condition.  Multiplying a
still-`None` `S0` raises `TypeError`. -/
def LongProfile.set_bcl_Neumann_RHS (self : LongProfile) : Except PyErr LongProfile :=
  match self.S0 with
  | none => Except.error (PyErr.typeError "unsupported operand types: float * NoneType")
  | some S0v =>
      Except.ok { self with
        bcl := npGet self.dx_ext_2cell 0 * S0v * -(npGet self.C1 0) *
          ((5 : ℝ) / 3 / npGet self.dx_ext 0 -
            npGet self.dQ 0 / npGet self.Q 0 / npGet self.dx_ext_2cell 0) }

/-- Python `set_bcl_Neumann_LHS()`: the ghost-node upstream condition folds
the ghost column into the first superdiagonal entry `right[0]`; the main
diagonal is untouched. -/
def LongProfile.set_bcl_Neumann_LHS (self : LongProfile) : LongProfile :=
  { self with
    right := self.right.set 0 (-(npGet self.C1 0) * ((5 : ℝ) / 3) *
      (1 / npGet self.dx_ext 0 + 1 / npGet self.dx_ext 1)) }

/-- Diagonal assembly of Python `build_matrices()`: the three diagonal
arrays `left`, `center`, `right` of the tridiagonal system, before any
boundary-row adjustment. -/
def LongProfile.assemble_diagonals (self : LongProfile) : LongProfile :=
  { self with
    left := emul (self.C1.map (fun c => -c))
      (esub (self.dx_ext.dropLast.map (fun d => (5 : ℝ) / 3 / d))
        (ediv (ediv self.dQ self.Q) self.dx_ext_2cell))
    center := (emul (self.C1.map (fun c => -c))
      ((esub (self.dx_ext.dropLast.map (fun d => -1 / d))
          ((self.dx_ext.drop 1).map (fun d => 1 / d))).map
        (fun v => (5 : ℝ) / 3 * v))).map (fun v => v + 1)
    right := emul (self.C1.map (fun c => -c))
      (eadd ((self.dx_ext.drop 1).map (fun d => (5 : ℝ) / 3 / d))
        (ediv (ediv self.dQ self.Q) self.dx_ext_2cell)) }

/-- Upstream boundary-row branch of Python `build_matrices()`: with no
upstream neighbor apply the Neumann adjustments (which raise `TypeError`
when `S0` was never set), otherwise only reset `bcl`. -/
def LongProfile.apply_bc_left (self : LongProfile) : Except PyErr LongProfile :=
  if self.upstream_segment_IDs.length = 0 then
    self.set_bcl_Neumann_LHS.set_bcl_Neumann_RHS
  else Except.ok { self with bcl := 0 }

/-- Downstream boundary-row branch of Python `build_matrices()`: with no
downstream neighbor apply the Dirichlet adjustment (which raises `TypeError`
when `z_bl` was never set), otherwise only reset `bcr`. -/
def LongProfile.apply_bc_right (self : LongProfile) : Except PyErr LongProfile :=
  if self.downstream_segment_IDs.length = 0 then
    self.set_bcr_Dirichlet
  else Except.ok { self with bcr := 0 }

/-- Python `build_matrices()`: refresh `C1`, build the three diagonals and
the right-hand side, overwrite boundary rows when the segment has no
upstream / downstream neighbor, and roll the off-diagonals into the layout
`scipy.sparse.spdiags` expects (offsets `[-1, 0, 1]`).  The assembled system
is stored as the triple of diagonal arrays plus `RHS`; an unset `S0` or
`z_bl` reached by a boundary adjustment aborts with `TypeError`. -/
def LongProfile.build_matrices (self : LongProfile) : Except PyErr LongProfile :=
  match self.compute_coefficient_time_varying.assemble_diagonals.apply_bc_left with
  | Except.error e => Except.error e
  | Except.ok s1 =>
    match s1.apply_bc_right with
    | Except.error e => Except.error e
    | Except.ok s2 =>
      let s3 := { s2 with left := rollLeft s2.left, right := rollRight s2.right }
      Except.ok { s3 with
        LHSmatrix := (s3.left, s3.center, s3.right)
        RHS := ((s3.bcl + npGet s3.z 0) :: interior s3.z ++
            [s3.bcr + npGetNeg s3.z 1]).map
          (fun v => v + s3.ssd * s3.dt +
            s3.downstream_fining_subsidence_equivalent * s3.dt + s3.U * s3.dt) }

/-- One inner nonlinear iteration of `evolve_threshold_width_river`: assemble
the system and overwrite the interior of `z_ext` with the solver's solution
(`self.z_ext[1:-1] = spsolve(self.LHSmatrix, self.RHS)`); an assembly
`TypeError` propagates. -/
def LongProfile.inner_iteration (solver : List ℝ × List ℝ × List ℝ → List ℝ → List ℝ)
    (self : LongProfile) : Except PyErr LongProfile :=
  match self.build_matrices with
  | Except.error e => Except.error e
  | Except.ok s1 =>
      Except.ok { s1 with z_ext := setInterior s1.z_ext (solver s1.LHSmatrix s1.RHS) }

/-- Python `for` loop over a fallible body: apply `f` sequentially `n`
times, aborting the whole loop at the first raised error. -/
def iterateE (f : LongProfile → Except PyErr LongProfile) :
    ℕ → LongProfile → Except PyErr LongProfile
  | 0, s => Except.ok s
  | n + 1, s =>
    match f s with
    | Except.error e => Except.error e
    | Except.ok s1 => iterateE f n s1

/-- One outer time step of `evolve_threshold_width_river`: record `zold`,
run `niter` inner iterations, advance time by `dt`, commit
`z = z_ext[1:-1].copy()`, compute `dz_dt = (z - zold)/dt` and
`Qs_internal = 1/(1-lambda_p) * cumsum(dz_dt) * B + Q_s_0`, then refresh the
upstream ghost when `S0` is set.  Adding a still-`None` `Q_s_0` raises
`TypeError` (the check is placed before the intermediate field updates; the
observable outcome — error value versus final state — is that of the
source, which computes the array and then fails on `+ None`). -/
def LongProfile.outer_step (solver : List ℝ × List ℝ × List ℝ → List ℝ → List ℝ)
    (self : LongProfile) : Except PyErr LongProfile :=
  match iterateE (LongProfile.inner_iteration solver) self.niter
      { self with zold := self.z } with
  | Except.error e => Except.error e
  | Except.ok s1 =>
    match s1.Q_s_0 with
    | none => Except.error (PyErr.typeError "unsupported operand types: ndarray + NoneType")
    | some q =>
      let s2 := { s1 with t := s1.t + s1.dt }
      let s3 := { s2 with z := interior s2.z_ext }
      let s4 := { s3 with dz_dt := (esub s3.z s3.zold).map (fun v => v / s3.dt) }
      let s5 := { s4 with
        Qs_internal := (emul ((cumsum s4.dz_dt).map (fun v => 1 / (1 - s4.lambda_p) * v))
            s4.B).map (fun v => v + q) }
      Except.ok s5.refresh_upstream_ghost

/-- The warning text emitted by `evolve_threshold_width_river` for a segment
that declares network neighbors (faithful to the source's string
concatenation, including its missing space). -/
def networkWarning : String :=
  "Unset boundary conditions for river segmentin network.\nLocal solution on segment will not be sensible."

/-- Setup phase of Python `evolve_threshold_width_river(nt, dt)`: warn
(non-fatally) when the segment declares network neighbors, store `nt` and
build `C0`. -/
def LongProfile.evolve_setup (self : LongProfile) (nt : ℕ) (dt : ℝ) : LongProfile :=
  let self :=
    if self.upstream_segment_IDs.length > 0 ∨ self.downstream_segment_IDs.length > 0 then
      { self with warnings := self.warnings ++ [networkWarning] }
    else self
  let self := { self with nt := nt }
  self.build_LHS_coeff_C0 dt

/-- Python `evolve_threshold_width_river(nt, dt)`: after the setup phase,
re-apply the base-level condition via `set_z_bl(self.z_bl)` — which raises
`TypeError` when the base level was never supplied — then run `nt` outer
time steps, aborting at the first raised error. -/
def LongProfile.evolve_threshold_width_river
    (solver : List ℝ × List ℝ × List ℝ → List ℝ → List ℝ)
    (self : LongProfile) (nt : ℕ) (dt : ℝ) : Except PyErr LongProfile :=
  match (self.evolve_setup nt dt).set_z_bl (self.evolve_setup nt dt).z_bl with
  | Except.error e => Except.error e
  | Except.ok s1 => iterateE (LongProfile.outer_step solver) nt s1

/-- Division with an explicit zero-divisor guard, used to instrument the
model of `set_Qs_input_upstream` for the safety claim. -/
def checkedDiv (a b : ℝ) : Option ℝ := if b = 0 then none else some (a / b)

/-- Instrumented variant of `set_Qs_input_upstream` in which its single
division, `|Q_s_0| / (k_Qs * intermittency * |Q[0]|)`, is guarded; every
other arithmetic step (`sign`, `abs`, power, product, difference) is total.
The source has no guard and no error branch here; this definition makes the
reachability of the division by zero observable. -/
def LongProfile.set_Qs_input_upstream_checked (self : LongProfile) (Q_s_0 : ℝ) :
    Option LongProfile :=
  (checkedDiv (|Q_s_0|) (self.k_Qs * self.intermittency * |npGet self.Q 0|)).map (fun r =>
    let S0 : ℝ := - Real.sign (npGet self.Q 0) * self.sinuosity * r ^ ((6 : ℝ) / 5)
    { self with
        Q_s_0 := some Q_s_0
        S0 := some S0
        z_ext := self.z_ext.set 0 (npGet self.z 0 - S0 * npGet self.dx_ext 0) })

/-- Concrete segment used to witness C1: `Q[0] = 10 > 0`, `Qs_in = 3 > 0`. -/
def lpC1 : LongProfile :=
  { z := [5, 4]
    z_ext := [6, 5, 4, 3]
    Q := [10, 10]
    dx_ext := [500, 500, 500]
    k_Qs := 2
    sinuosity := 1
    intermittency := 1 }

/-- C2 counterexample input: a ghost-padded coordinate array together with a
full, conflicting `(dx, nx, x0)` specification. -/
def xExtC2 : List ℝ := [-500, 0, 500, 1000, 1500]

/-- The state produced by the C7 counterexample call
`set_z(z_ext=[10, 0, 1, 2, 99])` on a fresh segment. -/
def lpC7res : LongProfile :=
  (LongProfile.init.set_z none (some [10, 0, 1, 2, 99]) none 0).toOption.getD LongProfile.init

/-- A configured three-node segment with no network neighbors, used to
witness the coefficient formulas (C4). -/
def lpC4 : LongProfile :=
  { LongProfile.init with
      z := [9, 8, 7]
      z_ext := [10, 9, 8, 7, 6]
      dx_ext_2cell := [1000, 1000, 1000]
      dx_ext := [500, 500, 500, 500]
      dx := [500, 500]
      Q := [10, 10, 10]
      B := [50, 50, 50]
      C0 := [1, 1, 1]
      k_Qs := 2 }

/-- A fully configured three-node segment with no network neighbors
(boundary values `S0` and `z_bl` set), used to witness the main-diagonal
formula (C5). -/
def lpC5 : LongProfile :=
  { LongProfile.init with
      z := [9, 8, 7]
      z_ext := [10, 9, 8, 7, 6]
      dx_ext_2cell := [1000, 1000, 1000]
      dx_ext := [500, 500, 500, 500]
      dx := [500, 500]
      Q := [10, 10, 10]
      B := [50, 50, 50]
      dQ := [0, 0, 0]
      C0 := [1, 1, 1]
      k_Qs := 2
      S0 := some (-1 / 500)
      z_bl := some 6 }

/-- The state assembled by `build_matrices` on `lpC5`. -/
def lpC5res : LongProfile := (lpC5.build_matrices).toOption.getD LongProfile.init

/-- The first nonlinear coefficient assembled by `build_matrices` on `lpC5`. -/
def cW : ℝ := (lpC5res.C1[0]?).getD 0

/-- A trivial stand-in for the external sparse solver, used in witnesses. -/
def solverW : List ℝ × List ℝ × List ℝ → List ℝ → List ℝ := fun _ rhs => rhs

/-- A segment declaring an upstream network neighbor whose boundary values
(`z_bl`, `Q_s_0`) were never supplied, used for C8. -/
def lpC8 : LongProfile := { LongProfile.init with upstream_segment_IDs := [1] }

/-- A fully configured segment declaring an upstream neighbor, on which the
evolution runs to completion; used to witness C8. -/
def lpOK : LongProfile :=
  { LongProfile.init with
      upstream_segment_IDs := [1]
      z := [9, 8, 7]
      z_ext := [10, 9, 8, 7, 6]
      dx_ext_2cell := [1000, 1000, 1000]
      dx_ext := [500, 500, 500, 500]
      dx := [500, 500]
      Q := [10, 10, 10]
      B := [50, 50, 50]
      dQ := [0, 0, 0]
      k_Qs := 2
      z_bl := some 6
      Q_s_0 := some 1
      niter := 1 }

/-- The state produced by one completed evolution step on `lpOK`. -/
def lpOKres : LongProfile :=
  (LongProfile.evolve_threshold_width_river solverW lpOK 1 1).toOption.getD LongProfile.init

/-- A fully configured segment with no network neighbors, `Q_s_0 = 2` and
`dt = 2`, used to witness C6. -/
def lpC6 : LongProfile :=
  { LongProfile.init with
      z := [9, 8, 7]
      z_ext := [10, 9, 8, 7, 6]
      dx_ext_2cell := [1000, 1000, 1000]
      dx_ext := [500, 500, 500, 500]
      dx := [500, 500]
      Q := [10, 10, 10]
      B := [50, 50, 50]
      dQ := [0, 0, 0]
      C0 := [1, 1, 1]
      k_Qs := 2
      S0 := some (-1 / 500)
      z_bl := some 6
      Q_s_0 := some 2
      dt := 2
      niter := 1 }

/-- The state after the inner sweeps of one outer step on `lpC6`. -/
def lpC6inner : LongProfile :=
  (iterateE (LongProfile.inner_iteration solverW) lpC6.niter
    { lpC6 with zold := lpC6.z }).toOption.getD LongProfile.init

/-- The state produced by one outer step on `lpC6`. -/
def lpC6res : LongProfile :=
  (LongProfile.outer_step solverW lpC6).toOption.getD LongProfile.init

/-- The state produced by a full one-step evolution call on `lpC6`. -/
def lpC6evo : LongProfile :=
  (LongProfile.evolve_threshold_width_river solverW lpC6 1 2).toOption.getD LongProfile.init

/-- The state produced by `set_z(z=[1,2,3])` on a fresh segment, witnessing
the amended ghost-consistency claim. -/
def lpC7w : LongProfile :=
  (LongProfile.init.set_z (some [1, 2, 3]) none none 0).toOption.getD LongProfile.init

/-- A configured segment whose `Q_s_0` was never set, used to witness C10. -/
def lpC10 : LongProfile :=
  { LongProfile.init with z_ext := [3, 2, 1, 0], x := [0, 1, 2] }

/-- The state produced by `set_Q(Q=[5,5,5])` on `lpC10`. -/
def lpC10res : LongProfile :=
  (lpC10.set_Q (some (NumOrArr.arr [5, 5, 5])) none none none none none none
    true).toOption.getD LongProfile.init

/-! ## Index-access helper lemmas -/

/-- Indexing after `List.drop`. -/
theorem getElem?_drop {α : Type} (l : List α) (n i : ℕ) : (l.drop n)[i]? = l[n + i]? := by
  induction n generalizing l with
  | zero => simp
  | succ n ih =>
    cases l with
    | nil => simp
    | cons a t => simpa [Nat.succ_add] using ih t

/-- Indexing after dropping the two leading entries (numpy `l[2:]`). -/
theorem getElem?_drop_two {α : Type} (l : List α) (i : ℕ) : (l.drop 2)[i]? = l[i + 2]? := by
  rw [getElem?_drop, Nat.add_comm]

/-- Head of a `List.set 0` on a nonempty list. -/
theorem npGet_set_zero (l : List ℝ) (v : ℝ) (h : l ≠ []) : npGet (l.set 0 v) 0 = v := by
  cases l with
  | nil => exact absurd rfl h
  | cons a t => rfl

/-- The interior slice of a ghost-padded array recovers the interior array. -/
theorem interior_ghostPad (l : List ℝ) : interior (ghostPad l) = l := by
  simp [interior, ghostPad]

/-- The interior slice commutes with `List.map`. -/
theorem interior_map (f : ℝ → ℝ) (l : List ℝ) : interior (l.map f) = (interior l).map f := by
  simp [interior, List.map_dropLast, List.map_drop]

/-- Overwriting the upstream ghost entry does not change the interior slice. -/
theorem interior_set_zero (l : List ℝ) (v : ℝ) : interior (l.set 0 v) = interior l := by
  cases l with
  | nil => rfl
  | cons a t => rfl

/-! ## Preservation lemmas for the stepper -/

/-- Fields untouched by the nonlinear-coefficient refresh. -/
theorem compute_preserves (s : LongProfile) :
    (s.compute_coefficient_time_varying).t = s.t ∧
    (s.compute_coefficient_time_varying).dt = s.dt ∧
    (s.compute_coefficient_time_varying).niter = s.niter ∧
    (s.compute_coefficient_time_varying).zold = s.zold ∧
    (s.compute_coefficient_time_varying).Q_s_0 = s.Q_s_0 ∧
    (s.compute_coefficient_time_varying).lambda_p = s.lambda_p ∧
    (s.compute_coefficient_time_varying).B = s.B ∧
    (s.compute_coefficient_time_varying).warnings = s.warnings := by
  simp only [LongProfile.compute_coefficient_time_varying,
    LongProfile.refresh_upstream_ghost, LongProfile.update_z_ext_0]
  repeat' split
  all_goals exact ⟨rfl, rfl, rfl, rfl, rfl, rfl, rfl, rfl⟩

/-- Fields untouched by the guarded upstream-ghost refresh. -/
theorem refresh_upstream_ghost_preserves (s : LongProfile) :
    s.refresh_upstream_ghost.t = s.t ∧
    s.refresh_upstream_ghost.dt = s.dt ∧
    s.refresh_upstream_ghost.z = s.z ∧
    s.refresh_upstream_ghost.dz_dt = s.dz_dt ∧
    s.refresh_upstream_ghost.Qs_internal = s.Qs_internal ∧
    s.refresh_upstream_ghost.warnings = s.warnings ∧
    s.refresh_upstream_ghost.niter = s.niter := by
  unfold LongProfile.refresh_upstream_ghost
  split
  · exact ⟨rfl, rfl, rfl, rfl, rfl, rfl, rfl⟩
  · exact ⟨rfl, rfl, rfl, rfl, rfl, rfl, rfl⟩

/-- Grid and field arrays untouched by the guarded upstream-ghost refresh. -/
theorem refresh_upstream_ghost_preserves_arrays (s : LongProfile) :
    s.refresh_upstream_ghost.C0 = s.C0 ∧
    s.refresh_upstream_ghost.Q = s.Q ∧
    s.refresh_upstream_ghost.B = s.B ∧
    s.refresh_upstream_ghost.dx_ext_2cell = s.dx_ext_2cell ∧
    s.refresh_upstream_ghost.dx_ext = s.dx_ext := by
  unfold LongProfile.refresh_upstream_ghost
  split
  · exact ⟨rfl, rfl, rfl, rfl, rfl⟩
  · exact ⟨rfl, rfl, rfl, rfl, rfl⟩

/-- Network-neighbor identifier lists untouched by the guarded refresh. -/
theorem refresh_upstream_ghost_preserves_ids (s : LongProfile) :
    s.refresh_upstream_ghost.upstream_segment_IDs = s.upstream_segment_IDs ∧
    s.refresh_upstream_ghost.downstream_segment_IDs = s.downstream_segment_IDs := by
  unfold LongProfile.refresh_upstream_ghost
  split
  · exact ⟨rfl, rfl⟩
  · exact ⟨rfl, rfl⟩

/-- The nonlinear-coefficient refresh does not change `dx_ext`. -/
theorem compute_preserves_dx_ext (s : LongProfile) :
    (s.compute_coefficient_time_varying).dx_ext = s.dx_ext := by
  simp only [LongProfile.compute_coefficient_time_varying,
    LongProfile.refresh_upstream_ghost, LongProfile.update_z_ext_0]
  repeat' split
  all_goals rfl

/-- Fields untouched by the upstream boundary-row branch when it succeeds. -/
theorem apply_bc_left_frame (s s' : LongProfile) (h : s.apply_bc_left = Except.ok s') :
    s'.t = s.t ∧ s'.dt = s.dt ∧ s'.niter = s.niter ∧ s'.zold = s.zold ∧
    s'.Q_s_0 = s.Q_s_0 ∧ s'.lambda_p = s.lambda_p ∧ s'.B = s.B ∧
    s'.warnings = s.warnings ∧ s'.C1 = s.C1 ∧ s'.center = s.center := by
  unfold LongProfile.apply_bc_left LongProfile.set_bcl_Neumann_LHS
    LongProfile.set_bcl_Neumann_RHS at h
  repeat' split at h
  all_goals (cases h <;> exact ⟨rfl, rfl, rfl, rfl, rfl, rfl, rfl, rfl, rfl, rfl⟩)

/-- Fields untouched by the downstream boundary-row branch when it succeeds. -/
theorem apply_bc_right_frame (s s' : LongProfile) (h : s.apply_bc_right = Except.ok s') :
    s'.t = s.t ∧ s'.dt = s.dt ∧ s'.niter = s.niter ∧ s'.zold = s.zold ∧
    s'.Q_s_0 = s.Q_s_0 ∧ s'.lambda_p = s.lambda_p ∧ s'.B = s.B ∧
    s'.warnings = s.warnings ∧ s'.C1 = s.C1 ∧ s'.center = s.center := by
  unfold LongProfile.apply_bc_right LongProfile.set_bcr_Dirichlet at h
  repeat' split at h
  all_goals (cases h <;> exact ⟨rfl, rfl, rfl, rfl, rfl, rfl, rfl, rfl, rfl, rfl⟩)

/-- Fields untouched by a successful matrix assembly. -/
theorem build_matrices_ok_frame (lp s' : LongProfile)
    (h : lp.build_matrices = Except.ok s') :
    s'.t = lp.t ∧ s'.dt = lp.dt ∧ s'.niter = lp.niter ∧ s'.zold = lp.zold ∧
    s'.Q_s_0 = lp.Q_s_0 ∧ s'.lambda_p = lp.lambda_p ∧ s'.B = lp.B ∧
    s'.warnings = lp.warnings := by
  obtain ⟨c1, c2, c3, c4, c5, c6, c7, c8⟩ := compute_preserves lp
  unfold LongProfile.build_matrices at h
  split at h
  · cases h
  · rename_i s1 heq1
    split at h
    · cases h
    · rename_i s2 heq2
      obtain ⟨l1, l2, l3, l4, l5, l6, l7, l8, _, _⟩ := apply_bc_left_frame _ s1 heq1
      obtain ⟨r1, r2, r3, r4, r5, r6, r7, r8, _, _⟩ := apply_bc_right_frame s1 s2 heq2
      injection h with h
      subst h
      exact ⟨r1.trans (l1.trans c1), r2.trans (l2.trans c2), r3.trans (l3.trans c3),
        r4.trans (l4.trans c4), r5.trans (l5.trans c5), r6.trans (l6.trans c6),
        r7.trans (l7.trans c7), r8.trans (l8.trans c8)⟩

/-- Fields untouched by a successful inner assemble-and-solve iteration. -/
theorem inner_iteration_ok_frame (solver : List ℝ × List ℝ × List ℝ → List ℝ → List ℝ)
    (s s' : LongProfile) (h : LongProfile.inner_iteration solver s = Except.ok s') :
    s'.t = s.t ∧ s'.dt = s.dt ∧ s'.niter = s.niter ∧ s'.zold = s.zold ∧
    s'.Q_s_0 = s.Q_s_0 ∧ s'.lambda_p = s.lambda_p ∧ s'.B = s.B ∧
    s'.warnings = s.warnings := by
  unfold LongProfile.inner_iteration at h
  split at h
  · cases h
  · rename_i s1 heq
    obtain ⟨b1, b2, b3, b4, b5, b6, b7, b8⟩ := build_matrices_ok_frame s s1 heq
    injection h with h
    subst h
    exact ⟨b1, b2, b3, b4, b5, b6, b7, b8⟩

/-- Fields untouched by any number of successful inner iterations. -/
theorem iterateE_inner_frame (solver : List ℝ × List ℝ × List ℝ → List ℝ → List ℝ)
    (n : ℕ) : ∀ (y s2 : LongProfile),
    iterateE (LongProfile.inner_iteration solver) n y = Except.ok s2 →
    s2.t = y.t ∧ s2.dt = y.dt ∧ s2.niter = y.niter ∧ s2.zold = y.zold ∧
    s2.Q_s_0 = y.Q_s_0 ∧ s2.lambda_p = y.lambda_p ∧ s2.B = y.B ∧
    s2.warnings = y.warnings := by
  induction n with
  | zero =>
    intro y s2 h
    injection h with h
    subst h
    exact ⟨rfl, rfl, rfl, rfl, rfl, rfl, rfl, rfl⟩
  | succ n ih =>
    intro y s2 h
    unfold iterateE at h
    split at h
    · cases h
    · rename_i y1 heq
      obtain ⟨g1, g2, g3, g4, g5, g6, g7, g8⟩ := inner_iteration_ok_frame solver y y1 heq
      obtain ⟨h1, h2, h3, h4, h5, h6, h7, h8⟩ := ih y1 s2 h
      exact ⟨h1.trans g1, h2.trans g2, h3.trans g3, h4.trans g4, h5.trans g5,
        h6.trans g6, h7.trans g7, h8.trans g8⟩

/-- Fields untouched by a successful base-level application. -/
theorem set_z_bl_ok_fields (s : LongProfile) (zb : Option ℝ) (r : LongProfile)
    (h : s.set_z_bl zb = Except.ok r) :
    r.t = s.t ∧ r.dt = s.dt ∧ r.warnings = s.warnings ∧ r.niter = s.niter := by
  cases zb with
  | none =>
    unfold LongProfile.set_z_bl at h
    cases h
  | some v =>
    unfold LongProfile.set_z_bl at h
    injection h with h
    subst h
    exact ⟨rfl, rfl, rfl, rfl⟩

/-- The setup phase of the evolution stores `dt` and touches neither `t`,
`z_bl` nor `niter`. -/
theorem evolve_setup_fields (s : LongProfile) (nt : ℕ) (dt : ℝ) :
    (s.evolve_setup nt dt).t = s.t ∧ (s.evolve_setup nt dt).dt = dt ∧
    (s.evolve_setup nt dt).z_bl = s.z_bl ∧ (s.evolve_setup nt dt).niter = s.niter := by
  simp only [LongProfile.evolve_setup, LongProfile.build_LHS_coeff_C0]
  split
  · exact ⟨rfl, trivial, rfl, rfl⟩
  · exact ⟨rfl, trivial, rfl, rfl⟩

/-- Warning log of the setup phase when the segment declares neighbors. -/
theorem evolve_setup_warnings_pos (s : LongProfile) (nt : ℕ) (dt : ℝ)
    (h : s.upstream_segment_IDs.length > 0 ∨ s.downstream_segment_IDs.length > 0) :
    (s.evolve_setup nt dt).warnings = s.warnings ++ [networkWarning] := by
  simp only [LongProfile.evolve_setup, LongProfile.build_LHS_coeff_C0]
  rw [if_pos h]

/-- Warning log of the setup phase when the segment declares no neighbors. -/
theorem evolve_setup_warnings_neg (s : LongProfile) (nt : ℕ) (dt : ℝ)
    (h : ¬(s.upstream_segment_IDs.length > 0 ∨ s.downstream_segment_IDs.length > 0)) :
    (s.evolve_setup nt dt).warnings = s.warnings := by
  simp only [LongProfile.evolve_setup, LongProfile.build_LHS_coeff_C0]
  rw [if_neg h]

/-- A completed outer time step advances `t` by the stored `dt` and leaves
`dt`, `warnings` and `niter` unchanged. -/
theorem outer_step_ok_fields (solver : List ℝ × List ℝ × List ℝ → List ℝ → List ℝ)
    (s r : LongProfile) (h : LongProfile.outer_step solver s = Except.ok r) :
    r.t = s.t + s.dt ∧ r.dt = s.dt ∧ r.warnings = s.warnings ∧ r.niter = s.niter := by
  unfold LongProfile.outer_step at h
  split at h
  · cases h
  · rename_i s1 heq
    obtain ⟨i1, i2, i3, i4, i5, i6, i7, i8⟩ :=
      iterateE_inner_frame solver s.niter { s with zold := s.z } s1 heq
    split at h
    · cases h
    · rename_i q heqq
      injection h with h
      subst h
      refine ⟨?_, ?_, ?_, ?_⟩
      · exact ((refresh_upstream_ghost_preserves _).1).trans
          (by show s1.t + s1.dt = s.t + s.dt; rw [show s1.t = s.t from i1,
            show s1.dt = s.dt from i2])
      · exact ((refresh_upstream_ghost_preserves _).2.1).trans (i2 : s1.dt = s.dt)
      · exact ((refresh_upstream_ghost_preserves _).2.2.2.2.2.1).trans
          (i8 : s1.warnings = s.warnings)
      · exact ((refresh_upstream_ghost_preserves _).2.2.2.2.2.2).trans
          (i3 : s1.niter = s.niter)

/-- Completed iterated outer steps advance `t` by `n * dt` and leave `dt`
and `warnings` unchanged. -/
theorem iterateE_outer_fields (solver : List ℝ × List ℝ × List ℝ → List ℝ → List ℝ)
    (n : ℕ) : ∀ (y r : LongProfile),
    iterateE (LongProfile.outer_step solver) n y = Except.ok r →
    r.t = y.t + n * y.dt ∧ r.dt = y.dt ∧ r.warnings = y.warnings := by
  induction n with
  | zero =>
    intro y r h
    injection h with h
    subst h
    exact ⟨by simp, rfl, rfl⟩
  | succ n ih =>
    intro y r h
    unfold iterateE at h
    split at h
    · cases h
    · rename_i y1 heq
      obtain ⟨g1, g2, g3, g4⟩ := outer_step_ok_fields solver y y1 heq
      obtain ⟨h1, h2, h3⟩ := ih y1 r h
      refine ⟨?_, h2.trans g2, h3.trans g3⟩
      rw [h1, g1, g2]
      push_cast
      ring

/-- `C1` of a successful matrix assembly is the one computed by the
coefficient refresh, and its main diagonal is the `center` array built
before the boundary-row adjustments (which touch only `right`, `bcl`, `bcr`
and the rolled off-diagonals). -/
theorem build_matrices_ok_center_C1 (lp s' : LongProfile)
    (h : lp.build_matrices = Except.ok s') :
    s'.C1 = (lp.compute_coefficient_time_varying).C1 ∧
    s'.center =
      (emul ((lp.compute_coefficient_time_varying).C1.map (fun c => -c))
        ((esub (lp.dx_ext.dropLast.map (fun d => -1 / d))
            ((lp.dx_ext.drop 1).map (fun d => 1 / d))).map
          (fun v => (5 : ℝ) / 3 * v))).map (fun v => v + 1) := by
  unfold LongProfile.build_matrices at h
  split at h
  · cases h
  · rename_i s1 heq1
    split at h
    · cases h
    · rename_i s2 heq2
      obtain ⟨_, _, _, _, _, _, _, _, l9, l10⟩ := apply_bc_left_frame _ s1 heq1
      obtain ⟨_, _, _, _, _, _, _, _, r9, r10⟩ := apply_bc_right_frame s1 s2 heq2
      injection h with h
      subst h
      constructor
      · exact r9.trans l9
      · refine (r10.trans l10).trans ?_
        show (emul ((lp.compute_coefficient_time_varying).C1.map (fun c => -c))
          ((esub ((lp.compute_coefficient_time_varying).dx_ext.dropLast.map (fun d => -1 / d))
              (((lp.compute_coefficient_time_varying).dx_ext.drop 1).map (fun d => 1 / d))).map
            (fun v => (5 : ℝ) / 3 * v))).map (fun v => v + 1) = _
        rw [compute_preserves_dx_ext]

/-! ## Claim theorems -/

/-- C1: for every segment whose fields are set and whose `Q[0]` is nonzero,
`set_Qs_input_upstream(Qs_in)` stores
`S0 = -sign(Q[0]) * sinuosity * (|Qs_in| / (k_Qs * intermittency * |Q[0]|))^(6/5)`
and sets `z_ext[0] = z[0] - S0 * dx_ext[0]`, for every sign combination of
`Qs_in` and `Q[0]`; reading back `S0` and `z_ext[0]` reproduces these
formulas exactly. -/
theorem set_Qs_input_upstream_boundary_formulas (lp : LongProfile) (Qs_in : ℝ)
    (hz : lp.z_ext ≠ []) (hQ : npGet lp.Q 0 ≠ 0) :
    (lp.set_Qs_input_upstream Qs_in).S0 =
      some (- Real.sign (npGet lp.Q 0) * lp.sinuosity *
        (|Qs_in| / (lp.k_Qs * lp.intermittency * |npGet lp.Q 0|)) ^ ((6 : ℝ) / 5)) ∧
    npGet (lp.set_Qs_input_upstream Qs_in).z_ext 0 =
      npGet lp.z 0 -
        (- Real.sign (npGet lp.Q 0) * lp.sinuosity *
          (|Qs_in| / (lp.k_Qs * lp.intermittency * |npGet lp.Q 0|)) ^ ((6 : ℝ) / 5)) *
        npGet lp.dx_ext 0 := by
  constructor
  · rfl
  · exact npGet_set_zero _ _ hz

theorem set_Qs_input_upstream_boundary_formulas_witness :
    (lpC1.set_Qs_input_upstream 3).S0 =
      some (- Real.sign (npGet lpC1.Q 0) * lpC1.sinuosity *
        (|(3 : ℝ)| / (lpC1.k_Qs * lpC1.intermittency * |npGet lpC1.Q 0|)) ^ ((6 : ℝ) / 5)) ∧
    npGet (lpC1.set_Qs_input_upstream 3).z_ext 0 =
      npGet lpC1.z 0 -
        (- Real.sign (npGet lpC1.Q 0) * lpC1.sinuosity *
          (|(3 : ℝ)| / (lpC1.k_Qs * lpC1.intermittency * |npGet lpC1.Q 0|)) ^ ((6 : ℝ) / 5)) *
        npGet lpC1.dx_ext 0 :=
  set_Qs_input_upstream_boundary_formulas lpC1 3 (by simp [lpC1])
    (by norm_num [lpC1, npGet])

/-- C2 counterexample: the claim says two conflicting grid specifications
raise a configuration error, but `set_x(x_ext=[-500,0,500,1000,1500],
dx=500, nx=3, x0=0)` on a fresh segment succeeds (no error of any kind is
raised); the `x_ext` specification is silently used. -/
theorem set_x_conflicting_specs_no_error :
    (LongProfile.init.set_x none (some xExtC2) (some 500) (some 3) (some 0)).isOk = true := by
  rfl

/-- C2 amended: supplying none of the three grid specifications (or an
incomplete `(dx, nx, x0)` triple) raises the configuration error
`sys.exit("Need x OR x_ext OR (dx, nx, x0)")`, but supplying two conflicting
specifications raises no error: with both `x_ext` and `(dx, nx, x0)` given,
the call succeeds and silently uses `x_ext` (setting `x = x_ext[1:-1]`). -/
theorem set_x_missing_spec_errors_conflicting_silent (self : LongProfile)
    (xev : List ℝ) (dxv : ℝ) (nxv : ℕ) (x0v : ℝ) :
    (∀ dx' nx' x0', (dx'.isNone ∨ nx'.isNone ∨ x0'.isNone) →
      self.set_x none none dx' nx' x0' =
        Except.error (PyErr.systemExit "Need x OR x_ext OR (dx, nx, x0)")) ∧
    ((self.set_x none (some xev) (some dxv) (some nxv) (some x0v)).isOk = true) ∧
    (∀ s', self.set_x none (some xev) (some dxv) (some nxv) (some x0v) = Except.ok s' →
      s'.x = interior xev) := by
  refine ⟨?_, ?_, ?_⟩
  · intro dx' nx' x0' h
    cases dx' with
    | none => rfl
    | some dv =>
      cases nx' with
      | none => rfl
      | some nv =>
        cases x0' with
        | none => rfl
        | some xv => simp at h
  · unfold LongProfile.set_x
    simp only []
    split <;> rfl
  · intro s' h
    unfold LongProfile.set_x at h
    simp only [] at h
    split at h <;> (injection h with h; subst h; rfl)

theorem set_x_missing_spec_errors_conflicting_silent_witness :
    (LongProfile.init.set_x none none (some 500) none none =
      Except.error (PyErr.systemExit "Need x OR x_ext OR (dx, nx, x0)")) ∧
    (∀ s', LongProfile.init.set_x none (some xExtC2) (some 500) (some 3) (some 0) =
        Except.ok s' → s'.x = interior xExtC2) :=
  ⟨(set_x_missing_spec_errors_conflicting_silent LongProfile.init xExtC2 500 3 0).1
      (some 500) none none (Or.inr (Or.inl rfl)),
   (set_x_missing_spec_errors_conflicting_silent LongProfile.init xExtC2 500 3 0).2.2⟩

/-- C3: evaluation of the code at the failing input.  The claim (and the
docstring "Pass one of three options: x alone ...") says that explicit
interior coordinates alone are a valid specification producing all geometry
outputs, but on a fresh segment `set_x(x=[0,500,1000])` raises
`AttributeError`: the `x`-only branch assigns only `x`, `dx` and `dx_2cell`
and never `x_ext`, `dx_ext` or `dx_ext_2cell`, and the method then reads
`self.x_ext` to compute the domain length. -/
theorem set_x_interior_only_crashes :
    LongProfile.init.set_x (some [0, 500, 1000]) none none none none =
      Except.error (PyErr.attributeError "x_ext") := by
  rfl

/-- Every successful branch of `set_Q` leaves `S0`, `z_ext` and `Q_s_0`
untouched before the trailing `update_Qs_input` block runs. -/
theorem set_Q_branch_frame (self : LongProfile) (Q : Option NumOrArr)
    (Q_ext : Option (List ℝ)) (q_R A_R P_AQ k_xQ P_xQ : Option ℝ)
    (s : LongProfile) (Qe : List ℝ)
    (h : self.set_Q_branch Q Q_ext q_R A_R P_AQ k_xQ P_xQ = Except.ok (s, Qe)) :
    s.S0 = self.S0 ∧ s.z_ext = self.z_ext ∧ s.Q_s_0 = self.Q_s_0 := by
  unfold LongProfile.set_Q_branch at h
  repeat' split at h
  all_goals (cases h <;> exact ⟨rfl, rfl, rfl⟩)

/-- C9: `set_Qs_input_upstream` divides `|Qs_in|` by
`k_Qs * intermittency * |Q[0]|` with no guard, and under the preconditions
`Q[0] ≠ 0`, `k_Qs ≠ 0`, `intermittency ≠ 0` the divisor is nonzero, so the
guarded instrumentation of the method agrees with the unguarded one: no
division by zero is reachable and no error branch is taken. -/
theorem set_Qs_input_upstream_division_safe (lp : LongProfile) (q : ℝ)
    (hQ : npGet lp.Q 0 ≠ 0) (hk : lp.k_Qs ≠ 0) (hI : lp.intermittency ≠ 0) :
    lp.k_Qs * lp.intermittency * |npGet lp.Q 0| ≠ 0 ∧
    lp.set_Qs_input_upstream_checked q = some (lp.set_Qs_input_upstream q) := by
  have hd : lp.k_Qs * lp.intermittency * |npGet lp.Q 0| ≠ 0 :=
    mul_ne_zero (mul_ne_zero hk hI) (abs_ne_zero.mpr hQ)
  refine ⟨hd, ?_⟩
  unfold LongProfile.set_Qs_input_upstream_checked checkedDiv
  rw [if_neg hd]
  rfl

theorem set_Qs_input_upstream_division_safe_witness :
    lpC1.k_Qs * lpC1.intermittency * |npGet lpC1.Q 0| ≠ 0 ∧
    lpC1.set_Qs_input_upstream_checked 3 = some (lpC1.set_Qs_input_upstream 3) :=
  set_Qs_input_upstream_division_safe lpC1 3 (by norm_num [lpC1, npGet])
    (by norm_num [lpC1]) (by norm_num [lpC1])

/-- With `Q_s_0` unset or zero, the `update_Qs_input` block of `set_Q` is the
identity on the state. -/
theorem set_Q_update_frame (s : LongProfile)
    (h0 : s.Q_s_0 = none ∨ s.Q_s_0 = some 0) (s' : LongProfile)
    (h : s.set_Q_update true = Except.ok s') : s' = s := by
  unfold LongProfile.set_Q_update at h
  split at h
  · split at h
    · rename_i v heqv
      split at h
      · rename_i hv
        exfalso
        rcases h0 with h0 | h0
        · rw [h0] at heqv
          cases heqv
        · rw [h0] at heqv
          injection heqv with heqv
          exact hv heqv.symm
      · injection h with h
        exact h.symm
    · injection h with h
      exact h.symm
  · rename_i hfalse
    exact absurd rfl hfalse

/-- On every successful path of `set_Q_tail` with `Q_s_0` unset or zero, the
stored `S0` and the whole ghost elevation array are untouched. -/
theorem set_Q_tail_frame (sk : LongProfile) (Q : Option NumOrArr)
    (Q_ext : Option (List ℝ)) (q_R A_R P_AQ k_xQ P_xQ : Option ℝ)
    (h0 : sk.Q_s_0 = none ∨ sk.Q_s_0 = some 0) (s' : LongProfile)
    (h : sk.set_Q_tail Q Q_ext q_R A_R P_AQ k_xQ P_xQ true = Except.ok s') :
    s'.S0 = sk.S0 ∧ s'.z_ext = sk.z_ext := by
  unfold LongProfile.set_Q_tail at h
  split at h
  · cases h
  · rename_i sQe heq
    obtain ⟨hS', hz', hq'⟩ := set_Q_branch_frame sk Q Q_ext q_R A_R P_AQ k_xQ P_xQ
      sQe.1 sQe.2 (by rw [heq])
    have hid := set_Q_update_frame { sQe.1 with dQ := twoCellDiff sQe.2 }
      (by
        rcases h0 with h0 | h0
        · exact Or.inl (hq'.trans h0)
        · exact Or.inr (hq'.trans h0))
      s' h
    subst hid
    exact ⟨hS', hz'⟩

/-- C10: when `Q_s_0` is unset (`None`) or equals exactly `0`, `set_Q` with
the default `update_Qs_input=True` leaves `S0` and the upstream ghost
elevation `z_ext[0]` unchanged on every successful execution path: the
upstream sediment-supply boundary condition is re-derived from the new
discharge only when a prior nonzero `Q_s_0` was stored. -/
theorem set_Q_preserves_upstream_bc_when_Qs0_unset (lp : LongProfile)
    (Q : Option NumOrArr) (Q_ext : Option (List ℝ)) (q_R A_R P_AQ k_xQ P_xQ : Option ℝ)
    (h0 : lp.Q_s_0 = none ∨ lp.Q_s_0 = some 0) (s' : LongProfile)
    (h : lp.set_Q Q Q_ext q_R A_R P_AQ k_xQ P_xQ true = Except.ok s') :
    s'.S0 = lp.S0 ∧ npGet s'.z_ext 0 = npGet lp.z_ext 0 := by
  unfold LongProfile.set_Q at h
  cases k_xQ with
  | none =>
      obtain ⟨h1, h2⟩ := set_Q_tail_frame lp Q Q_ext q_R A_R P_AQ none P_xQ h0 s' h
      exact ⟨h1, by rw [h2]⟩
  | some v =>
      obtain ⟨h1, h2⟩ := set_Q_tail_frame { lp with k_xQ := some v } Q Q_ext q_R A_R P_AQ
        (some v) P_xQ h0 s' h
      exact ⟨h1, by rw [h2]⟩

theorem set_Q_preserves_upstream_bc_when_Qs0_unset_witness :
    lpC10res.S0 = lpC10.S0 ∧ npGet lpC10res.z_ext 0 = npGet lpC10.z_ext 0 :=
  set_Q_preserves_upstream_bc_when_Qs0_unset lpC10 (some (NumOrArr.arr [5, 5, 5]))
    none none none none none none (Or.inl rfl) lpC10res rfl

/-- The `update_Qs_input` block never changes the stored discharge `Q` or
its two-cell difference `dQ`. -/
theorem set_Q_update_preserves_Q_dQ (s : LongProfile) (upd : Bool) (s' : LongProfile)
    (h : s.set_Q_update upd = Except.ok s') : s'.Q = s.Q ∧ s'.dQ = s.dQ := by
  unfold LongProfile.set_Q_update at h
  repeat' split at h
  all_goals (injection h with h; subst h; exact ⟨rfl, rfl⟩)

/-- A state whose `z` equals the interior of its `z_ext` keeps that property
through the guarded upstream-ghost refresh. -/
theorem refresh_upstream_ghost_ghost_consistent (s : LongProfile)
    (h : s.z = interior s.z_ext) :
    s.refresh_upstream_ghost.z = interior s.refresh_upstream_ghost.z_ext := by
  unfold LongProfile.refresh_upstream_ghost
  split
  · show s.z = interior (s.z_ext.set 0 _)
    rw [interior_set_zero]
    exact h
  · exact h

/-- C7 counterexample: the claim also asserts that the two ghost entries are
linear extrapolations of the two nearest interior values unless overridden by
a boundary condition, but `set_z(z_ext=[10, 0, 1, 2, 99])` on a fresh segment
(no sediment-supply or base-level condition involved, `S0` still unset)
stores the supplied ghost `z_ext[0] = 10`, which differs from the linear
extrapolation `2*z[0] - z[1] = -1`. -/
theorem set_z_ext_ghost_not_extrapolated :
    (LongProfile.init.set_z none (some [10, 0, 1, 2, 99]) none 0 = Except.ok lpC7res) ∧
    lpC7res.z = [0, 1, 2] ∧
    npGet lpC7res.z_ext 0 = 10 ∧
    2 * npGet lpC7res.z 0 - npGet lpC7res.z 1 = -1 ∧
    lpC7res.S0 = none ∧
    npGet lpC7res.z_ext 0 ≠ 2 * npGet lpC7res.z 0 - npGet lpC7res.z 1 := by
  refine ⟨rfl, rfl, rfl, ?_, rfl, ?_⟩
  · show 2 * (0 : ℝ) - 1 = -1
    norm_num
  · show (10 : ℝ) ≠ 2 * (0 : ℝ) - 1
    norm_num

/-- C7 amended: after every field-setting operation on valid inputs and after
every completed outer step of the evolution loop, the interior slice of the
ghost-padded array equals the interior array (`z_ext[1:-1] == z`, and
analogously for `A` and the `Q`-derived ghost array feeding `dQ`); when the
interior array is supplied directly, the two ghost entries are the linear
extrapolations `2*f[0]-f[1]` and `2*f[-1]-f[-2]`, but when the caller
supplies the ghost-padded array itself its ghost entries are stored verbatim
(not extrapolated, and not overridden by any boundary condition). -/
theorem field_setters_ghost_consistency :
    (∀ (self : LongProfile) (zv : List ℝ) (z1 : ℝ) (s' : LongProfile),
      self.set_z (some zv) none none z1 = Except.ok s' →
      s'.z = zv ∧ s'.z_ext = ghostPad zv ∧ interior s'.z_ext = s'.z) ∧
    (∀ (self : LongProfile) (zev : List ℝ) (z1 : ℝ) (s' : LongProfile),
      self.set_z none (some zev) none z1 = Except.ok s' →
      s'.z = interior zev ∧ s'.z_ext = zev) ∧
    (∀ (self : LongProfile) (xev : List ℝ) (S0v z1 : ℝ) (s' : LongProfile),
      self.x_ext = some xev → interior xev = self.x →
      self.set_z none none (some S0v) z1 = Except.ok s' →
      interior s'.z_ext = s'.z) ∧
    (∀ (self : LongProfile) (Av : List ℝ) (s' : LongProfile),
      self.set_A (some Av) none none none = Except.ok s' →
      s'.A = Av ∧ s'.A_ext = ghostPad Av ∧ interior s'.A_ext = s'.A) ∧
    (∀ (self : LongProfile) (Aev : List ℝ) (s' : LongProfile),
      self.set_A none (some Aev) none none = Except.ok s' →
      s'.A = interior Aev ∧ s'.A_ext = Aev) ∧
    (∀ (self : LongProfile) (Qv : List ℝ) (upd : Bool) (s' : LongProfile),
      self.set_Q (some (NumOrArr.arr Qv)) none none none none none none upd =
        Except.ok s' →
      s'.Q = Qv ∧ s'.dQ = twoCellDiff (ghostPad Qv)) ∧
    (∀ (solver : List ℝ × List ℝ × List ℝ → List ℝ → List ℝ) (self r : LongProfile),
      LongProfile.outer_step solver self = Except.ok r →
      r.z = interior r.z_ext) := by
  refine ⟨?_, ?_, ?_, ?_, ?_, ?_, ?_⟩
  · intro self zv z1 s' h
    injection h with h
    subst h
    exact ⟨rfl, rfl, interior_ghostPad zv⟩
  · intro self zev z1 s' h
    injection h with h
    subst h
    exact ⟨rfl, rfl⟩
  · intro self xev S0v z1 s' hxe hint h
    simp only [LongProfile.set_z] at h
    rw [hxe] at h
    split at h
    · split at h
      · rename_i heq
        cases heq
      · rename_i xev2 heq
        injection heq with heq
        subst heq
        split at h
        · injection h with h
          subst h
          show interior (xev.map (fun xi => xi * S0v + (z1 - npGetNeg self.x 1 * S0v))) =
            self.x.map (fun xi => xi * S0v + (z1 - npGetNeg self.x 1 * S0v))
          rw [interior_map, hint]
        · cases h
    · cases h
  · intro self Av s' h
    injection h with h
    subst h
    exact ⟨rfl, rfl, interior_ghostPad Av⟩
  · intro self Aev s' h
    injection h with h
    subst h
    exact ⟨rfl, rfl⟩
  · intro self Qv upd s' h
    have h2 : LongProfile.set_Q_update
        { self with Q := Qv, dQ := twoCellDiff (ghostPad Qv) } upd = Except.ok s' := h
    obtain ⟨h3, h4⟩ := set_Q_update_preserves_Q_dQ _ upd s' h2
    exact ⟨h3, h4⟩
  · intro solver self r h
    unfold LongProfile.outer_step at h
    split at h
    · cases h
    · split at h
      · cases h
      · injection h with h
        subst h
        exact refresh_upstream_ghost_ghost_consistent _ rfl

theorem field_setters_ghost_consistency_witness :
    lpC7w.z = [1, 2, 3] ∧ lpC7w.z_ext = ghostPad [1, 2, 3] ∧
    interior lpC7w.z_ext = lpC7w.z :=
  field_setters_ghost_consistency.1 LongProfile.init [1, 2, 3] 0 lpC7w rfl

/-- C8 counterexample: on the claim's own scenario — a segment that declares
a network neighbor but whose boundary values (`z_bl`, `Q_s_0`) were never
supplied — `evolve_threshold_width_river` does NOT run to completion: it
aborts with the `TypeError` raised by `self.set_z_bl(self.z_bl)` storing
`None` into the float array `z_ext` (srlp.py line 397), before any time
step runs. -/
theorem evolve_aborts_when_z_bl_unset :
    lpC8.upstream_segment_IDs ≠ [] ∧ lpC8.z_bl = none ∧ lpC8.Q_s_0 = none ∧
    LongProfile.evolve_threshold_width_river solverW lpC8 2 1 =
      Except.error (PyErr.typeError "float() argument must not be NoneType") := by
  refine ⟨?_, rfl, rfl, rfl⟩
  intro hcontra
  exact List.cons_ne_nil 1 [] hcontra

/-- C8 corrected: the warning half of the claim holds — whenever network
neighbors are declared the non-fatal warning is logged (the code never
checks whether their boundary values were supplied), and no warning is
logged without neighbors — but the completion half does not: with the
boundary values genuinely unsupplied the call aborts with `TypeError` at
`set_z_bl(None)` instead of producing a result.  Whenever the call does
return a state, the warning is in its log exactly when neighbors were
declared, and time has advanced by the full `nt * dt`. -/
theorem evolve_network_warning (solver : List ℝ × List ℝ × List ℝ → List ℝ → List ℝ)
    (lp : LongProfile) (nt : ℕ) (dt : ℝ) :
    (lp.z_bl = none →
      LongProfile.evolve_threshold_width_river solver lp nt dt =
        Except.error (PyErr.typeError "float() argument must not be NoneType")) ∧
    ((lp.upstream_segment_IDs ≠ [] ∨ lp.downstream_segment_IDs ≠ []) →
      ∀ r, LongProfile.evolve_threshold_width_river solver lp nt dt = Except.ok r →
        networkWarning ∈ r.warnings) ∧
    (lp.upstream_segment_IDs = [] → lp.downstream_segment_IDs = [] →
      ∀ r, LongProfile.evolve_threshold_width_river solver lp nt dt = Except.ok r →
        r.warnings = lp.warnings) ∧
    (∀ r, LongProfile.evolve_threshold_width_river solver lp nt dt = Except.ok r →
      r.t = lp.t + nt * dt) := by
  refine ⟨?_, ?_, ?_, ?_⟩
  · intro hbl
    have hz : (lp.evolve_setup nt dt).z_bl = none :=
      ((evolve_setup_fields lp nt dt).2.2.1).trans hbl
    simp only [LongProfile.evolve_threshold_width_river]
    rw [hz]
    rfl
  · intro hne r h
    have hcond : lp.upstream_segment_IDs.length > 0 ∨
        lp.downstream_segment_IDs.length > 0 := by
      rcases hne with h1 | h1
      · exact Or.inl (List.length_pos.mpr h1)
      · exact Or.inr (List.length_pos.mpr h1)
    simp only [LongProfile.evolve_threshold_width_river] at h
    split at h
    · cases h
    · rename_i s1 heq
      have hw1 : s1.warnings = (lp.evolve_setup nt dt).warnings :=
        (set_z_bl_ok_fields _ _ s1 heq).2.2.1
      have hw2 : r.warnings = s1.warnings :=
        (iterateE_outer_fields solver nt s1 r h).2.2
      rw [hw2, hw1, evolve_setup_warnings_pos lp nt dt hcond]
      simp
  · intro h1 h2 r h
    have hcond : ¬(lp.upstream_segment_IDs.length > 0 ∨
        lp.downstream_segment_IDs.length > 0) := by
      simp [h1, h2]
    simp only [LongProfile.evolve_threshold_width_river] at h
    split at h
    · cases h
    · rename_i s1 heq
      have hw1 : s1.warnings = (lp.evolve_setup nt dt).warnings :=
        (set_z_bl_ok_fields _ _ s1 heq).2.2.1
      have hw2 : r.warnings = s1.warnings :=
        (iterateE_outer_fields solver nt s1 r h).2.2
      rw [hw2, hw1, evolve_setup_warnings_neg lp nt dt hcond]
  · intro r h
    simp only [LongProfile.evolve_threshold_width_river] at h
    split at h
    · cases h
    · rename_i s1 heq
      obtain ⟨e1, e2, e3⟩ := iterateE_outer_fields solver nt s1 r h
      obtain ⟨b1, b2, b3, b4⟩ := set_z_bl_ok_fields _ _ s1 heq
      obtain ⟨f1, f2, f3, f4⟩ := evolve_setup_fields lp nt dt
      rw [e1, b1, f1, b2, f2]

theorem evolve_network_warning_witness :
    lpOK.upstream_segment_IDs ≠ [] ∧
    LongProfile.evolve_threshold_width_river solverW lpOK 1 1 = Except.ok lpOKres ∧
    networkWarning ∈ lpOKres.warnings ∧
    lpOKres.t = lpOK.t + (1 : ℕ) * (1 : ℝ) :=
  ⟨fun hcontra => List.cons_ne_nil 1 [] hcontra, rfl,
    (evolve_network_warning solverW lpOK 1 1).2.1
      (Or.inl (fun hcontra => List.cons_ne_nil 1 [] hcontra)) lpOKres rfl,
    (evolve_network_warning solverW lpOK 1 1).2.2.2 lpOKres rfl⟩

/-- C6: each outer time step of `evolve_threshold_width_river(nt, dt)` runs
exactly `niter` inner assemble-and-solve sweeps, then commits the new
elevation (`z` becomes a copy of `z_ext[1:-1]`), advances the simulation
time by `dt` (so `t` grows by exactly `nt * dt` over a completed call),
computes `dz_dt = (z - zold)/dt` against the elevation committed at the
previous step, and sets the diagnostic
`Qs_internal = 1/(1-lambda_p) * cumulative_sum(dz_dt) * B + Q_s_0`. -/
theorem evolve_outer_step_structure (solver : List ℝ × List ℝ × List ℝ → List ℝ → List ℝ)
    (lp : LongProfile) (nt : ℕ) (dt : ℝ) :
    (∀ r, LongProfile.evolve_threshold_width_river solver lp nt dt = Except.ok r →
      r.t = lp.t + nt * dt) ∧
    (∀ (s s2 r : LongProfile) (q : ℝ), s.Q_s_0 = some q → s.dt = dt →
      iterateE (LongProfile.inner_iteration solver) s.niter { s with zold := s.z } =
        Except.ok s2 →
      LongProfile.outer_step solver s = Except.ok r →
      r.z = interior s2.z_ext ∧
      r.t = s.t + dt ∧
      r.dz_dt = (esub r.z s.z).map (fun v => v / dt) ∧
      r.Qs_internal = (emul ((cumsum r.dz_dt).map
          (fun v => 1 / (1 - s.lambda_p) * v)) s.B).map (fun v => v + q)) := by
  constructor
  · intro r h
    simp only [LongProfile.evolve_threshold_width_river] at h
    split at h
    · cases h
    · rename_i s1 heq
      obtain ⟨e1, e2, e3⟩ := iterateE_outer_fields solver nt s1 r h
      obtain ⟨b1, b2, b3, b4⟩ := set_z_bl_ok_fields _ _ s1 heq
      obtain ⟨f1, f2, f3, f4⟩ := evolve_setup_fields lp nt dt
      rw [e1, b1, f1, b2, f2]
  · intro s s2 r q hq hdt hiter h
    obtain ⟨i1, i2, i3, i4, i5, i6, i7, i8⟩ :=
      iterateE_inner_frame solver s.niter { s with zold := s.z } s2 hiter
    have hq2 : s2.Q_s_0 = some q := i5.trans hq
    unfold LongProfile.outer_step at h
    rw [hiter] at h
    simp only [hq2] at h
    injection h with h
    subst h
    refine ⟨?_, ?_, ?_, ?_⟩
    · exact (refresh_upstream_ghost_preserves _).2.2.1
    · exact ((refresh_upstream_ghost_preserves _).1).trans
        (by show s2.t + s2.dt = s.t + dt
            rw [show s2.t = s.t from i1, show s2.dt = dt from i2.trans hdt])
    · rw [(refresh_upstream_ghost_preserves _).2.2.2.1,
        (refresh_upstream_ghost_preserves _).2.2.1]
      show (esub (interior s2.z_ext) s2.zold).map (fun v => v / s2.dt) =
        (esub (interior s2.z_ext) s.z).map (fun v => v / dt)
      rw [show s2.zold = s.z from i4, show s2.dt = dt from i2.trans hdt]
    · rw [(refresh_upstream_ghost_preserves _).2.2.2.2.1,
        (refresh_upstream_ghost_preserves _).2.2.2.1]
      show (emul ((cumsum ((esub (interior s2.z_ext) s2.zold).map
            (fun v => v / s2.dt))).map
          (fun v => 1 / (1 - s2.lambda_p) * v)) s2.B).map (fun v => v + q) =
        (emul ((cumsum ((esub (interior s2.z_ext) s2.zold).map
            (fun v => v / s2.dt))).map
          (fun v => 1 / (1 - s.lambda_p) * v)) s.B).map (fun v => v + q)
      rw [show s2.lambda_p = s.lambda_p from i6, show s2.B = s.B from i7]

theorem evolve_outer_step_structure_witness :
    (LongProfile.evolve_threshold_width_river solverW lpC6 1 2 = Except.ok lpC6evo ∧
      lpC6evo.t = lpC6.t + (1 : ℕ) * (2 : ℝ)) ∧
    lpC6.Q_s_0 = some 2 ∧ lpC6.dt = 2 ∧
    lpC6res.z = interior lpC6inner.z_ext ∧ lpC6res.t = lpC6.t + 2 :=
  ⟨⟨rfl, (evolve_outer_step_structure solverW lpC6 1 2).1 lpC6evo rfl⟩, rfl, rfl,
    ((evolve_outer_step_structure solverW lpC6 1 2).2 lpC6 lpC6inner lpC6res 2
      rfl rfl rfl rfl).1,
    ((evolve_outer_step_structure solverW lpC6 1 2).2 lpC6 lpC6inner lpC6res 2
      rfl rfl rfl rfl).2.1⟩

/-- C4: for every configured segment with no upstream and no downstream
neighbors, `build_LHS_coeff_C0(dt)` sets
`C0 = k_Qs * intermittency / ((1-lambda_p) * sinuosity^(5/6)) * dt / dx_ext_2cell`
elementwise over the interior nodes, and `compute_coefficient_time_varying`
then sets `C1 = C0 * |slope|^(-1/6) * Q / B` elementwise, where
`slope = (z_ext[2:] - z_ext[:-2]) / dx_ext_2cell` over the method's
(boundary-refreshed) ghost-padded elevation. -/
theorem coefficient_formulas (lp : LongProfile) (dtv : ℝ) (i : ℕ)
    (hup : lp.upstream_segment_IDs = []) (hdown : lp.downstream_segment_IDs = []) :
    (lp.build_LHS_coeff_C0 dtv).C0[i]? =
      (lp.dx_ext_2cell[i]?).map (fun d =>
        lp.k_Qs * lp.intermittency / ((1 - lp.lambda_p) * lp.sinuosity ^ ((5 : ℝ) / 6)) *
          dtv / d) ∧
    (lp.compute_coefficient_time_varying).C1[i]? =
      (lp.C0[i]?).bind (fun c =>
        ((lp.compute_coefficient_time_varying).z_ext[i + 2]?).bind (fun z2 =>
          ((lp.compute_coefficient_time_varying).z_ext[i]?).bind (fun z0 =>
            (lp.dx_ext_2cell[i]?).bind (fun d =>
              (lp.Q[i]?).bind (fun qv =>
                (lp.B[i]?).map (fun b =>
                  c * |(z2 - z0) / d| ^ (-(1 : ℝ) / 6) * qv / b)))))) := by
  constructor
  · show (lp.dx_ext_2cell.map _)[i]? = _
    exact List.getElem?_map _ lp.dx_ext_2cell i
  · have hz : (lp.compute_coefficient_time_varying).z_ext =
        (lp.refresh_upstream_ghost).z_ext := by
      simp only [LongProfile.compute_coefficient_time_varying]
      split <;> split <;> rfl
    have hC1 : (lp.compute_coefficient_time_varying).C1 =
        ediv (emul (emul lp.C0
          ((ediv (twoCellDiff (lp.refresh_upstream_ghost).z_ext) lp.dx_ext_2cell).map
            (fun sv => |sv| ^ (-(1 : ℝ) / 6)))) lp.Q) lp.B := by
      simp only [LongProfile.compute_coefficient_time_varying]
      obtain ⟨a1, a2, a3, a4, a5⟩ := refresh_upstream_ghost_preserves_arrays lp
      split
      · rename_i hcond
        exfalso
        rw [(refresh_upstream_ghost_preserves_ids lp).2, hdown] at hcond
        simp at hcond
      · split
        · rename_i hcond
          exfalso
          rw [(refresh_upstream_ghost_preserves_ids lp).1, hup] at hcond
          simp at hcond
        · rw [a1, a2, a3, a4]
    rw [hC1, hz]
    simp only [ediv, emul, twoCellDiff, List.getElem?_zipWith, List.getElem?_map,
      getElem?_drop_two]
    rcases lp.C0[i]? with _ | c <;>
      rcases (lp.refresh_upstream_ghost).z_ext[i + 2]? with _ | z2 <;>
      rcases (lp.refresh_upstream_ghost).z_ext[i]? with _ | z0 <;>
      rcases lp.dx_ext_2cell[i]? with _ | d <;>
      rcases lp.Q[i]? with _ | qv <;>
      rcases lp.B[i]? with _ | b <;>
      simp

theorem coefficient_formulas_witness :
    (lpC4.build_LHS_coeff_C0 7).C0[0]? =
      (lpC4.dx_ext_2cell[0]?).map (fun d =>
        lpC4.k_Qs * lpC4.intermittency /
          ((1 - lpC4.lambda_p) * lpC4.sinuosity ^ ((5 : ℝ) / 6)) * 7 / d) ∧
    (lpC4.compute_coefficient_time_varying).C1[0]? =
      (lpC4.C0[0]?).bind (fun c =>
        ((lpC4.compute_coefficient_time_varying).z_ext[0 + 2]?).bind (fun z2 =>
          ((lpC4.compute_coefficient_time_varying).z_ext[0]?).bind (fun z0 =>
            (lpC4.dx_ext_2cell[0]?).bind (fun d =>
              (lpC4.Q[0]?).bind (fun qv =>
                (lpC4.B[0]?).map (fun b =>
                  c * |(z2 - z0) / d| ^ (-(1 : ℝ) / 6) * qv / b)))))) :=
  coefficient_formulas lpC4 7 0 rfl rfl

/-- C5: for every segment and every inner iteration, the main-diagonal entry
of the tridiagonal matrix assembled by `build_matrices` (whenever the
assembly completes) equals, at every interior node `i`,
`1 + C1[i] * (5/3) * (1/dx_ext[i] + 1/dx_ext[i+1])`, including after the
boundary rows are adjusted, since those adjustments touch only off-diagonal
and right-hand-side terms. -/
theorem main_diagonal_formula (lp s' : LongProfile) (i : ℕ) (c d0 d1 : ℝ)
    (hok : lp.build_matrices = Except.ok s')
    (hc : s'.C1[i]? = some c)
    (h0 : lp.dx_ext[i]? = some d0)
    (h1 : lp.dx_ext[i + 1]? = some d1) :
    s'.center[i]? = some (1 + c * ((5 : ℝ) / 3) * (1 / d0 + 1 / d1)) := by
  obtain ⟨hC1eq, hcen⟩ := build_matrices_ok_center_C1 lp s' hok
  rw [hC1eq] at hc
  rw [hcen]
  have hlen : i + 1 < lp.dx_ext.length := by
    obtain ⟨hl, _⟩ := List.getElem?_eq_some_iff.mp h1
    exact hl
  have hdl : lp.dx_ext.dropLast[i]? = some d0 := by
    rw [List.getElem?_dropLast, if_pos (by omega)]
    exact h0
  have hdr : (lp.dx_ext.drop 1)[i]? = some d1 := by
    rw [getElem?_drop, Nat.add_comm]
    exact h1
  simp only [emul, esub, List.getElem?_map, List.getElem?_zipWith, hc, hdl, hdr]
  simp
  ring

theorem main_diagonal_formula_witness :
    lpC5.build_matrices = Except.ok lpC5res ∧
    lpC5res.center[0]? = some (1 + cW * ((5 : ℝ) / 3) * (1 / 500 + 1 / 500)) :=
  ⟨rfl, main_diagonal_formula lpC5 lpC5res 0 cW 500 500 rfl rfl rfl rfl⟩

end

end SRLP
